import Mathlib

/-!
# Verification of the Saleor order/checkout price recalculation pipeline

Shallow embedding of `saleor/order/calculations.py` and
`saleor/checkout/calculations.py` (monetary amounts as exact rationals,
Django ORM state as explicit record fields, plugin-manager calls as
function-valued records, Python `try/except TaxError` as `Except`-valued
calls consumed at the catch site).

Parts of the repository that are referenced by those two modules but whose
source is not available (ORM models, `prices` library helpers,
`base_calculations`, flat-rate tax calculation, tax-configuration lookup)
are modelled from the specification; each such definition carries a doc
comment starting with `Modelled from the spec:`.
-/

set_option maxHeartbeats 1000000

namespace Saleor

/-- A `prices.TaxedMoney` value: an immutable (net, gross) pair in one
currency; amounts are embedded as exact rationals. -/
structure TaxedMoney where
  net : ℚ
  gross : ℚ
  deriving Repr, DecidableEq

/-- Componentwise addition of two `TaxedMoney` values
(`prices.TaxedMoney.__add__`). -/
def TaxedMoney.add (a b : TaxedMoney) : TaxedMoney :=
  ⟨a.net + b.net, a.gross + b.gross⟩

instance : Add TaxedMoney := ⟨TaxedMoney.add⟩

/-- `prices.TaxedMoney.__sub__` with a plain `Money` argument: the amount is
subtracted from both the net and the gross component. -/
def TaxedMoney.subMoney (a : TaxedMoney) (m : ℚ) : TaxedMoney :=
  ⟨a.net - m, a.gross - m⟩

/-- `prices.TaxedMoney.__truediv__` by a line quantity: both components are
divided (exact rational division embeds Python `Decimal` division). -/
def TaxedMoney.divNat (a : TaxedMoney) (q : ℕ) : TaxedMoney :=
  ⟨a.net / q, a.gross / q⟩

/-- `zero_taxed_money(currency)` from `saleor.core.taxes`: a `TaxedMoney`
with zero net and zero gross. -/
def zero_taxed_money : TaxedMoney := ⟨0, 0⟩

@[simp] theorem TaxedMoney.add_def (a b : TaxedMoney) :
    a + b = ⟨a.net + b.net, a.gross + b.gross⟩ := rfl

@[simp] theorem zero_taxed_money_net : zero_taxed_money.net = 0 := rfl

@[simp] theorem zero_taxed_money_gross : zero_taxed_money.gross = 0 := rfl

/-- `DiscountType` from `saleor.discount`: the type tag of a discount
record. -/
inductive DiscountType where
  | voucher
  | promotion
  | manual
  deriving Repr, DecidableEq

/-- `DiscountValueType`: a discount value is a fixed amount or a
percentage. -/
inductive DiscountValueType where
  | fixed
  | percentage
  deriving Repr, DecidableEq

/-- An `OrderDiscount` row attached to an order (the fields
`_update_order_discount_for_voucher` reads and writes). -/
structure Discount where
  type : DiscountType
  value_type : DiscountValueType
  value : ℚ
  reason : String
  voucher : Option ℕ
  voucher_code : Option String
  deriving Repr, DecidableEq

/-- A `VoucherChannelListing` row: the channel-specific value of a
voucher. -/
structure VoucherChannelListing where
  channel : ℕ
  discount_value : ℚ
  deriving Repr, DecidableEq

/-- A `Voucher` row, with the fields read by the discount resolver. -/
structure Voucher where
  id : ℕ
  name : String
  discount_value_type : DiscountValueType
  channel_listings : List VoucherChannelListing
  deriving Repr, DecidableEq

/-- `OrderStatus` values (only membership in the editable set matters to the
embedded code). -/
inductive OrderStatus where
  | draft
  | unconfirmed
  | unfulfilled
  | partially_fulfilled
  | fulfilled
  | canceled
  | expired
  deriving Repr, DecidableEq

/-- Modelled from the spec: `ORDER_EDITABLE_STATUS` from
`saleor/order/__init__.py` is not under `src/`; the spec describes an
"editable" set excluding finalized (fulfilled/canceled) orders.  In the
repository the editable statuses are draft and unconfirmed. -/
def ORDER_EDITABLE_STATUS : List OrderStatus :=
  [OrderStatus.draft, OrderStatus.unconfirmed]

/-- An `OrderLine` row, restricted to the fields the recalculation pipeline
reads and writes.  `variant` is `none` when the line's product variant was
deleted (the plugin loop skips such lines). -/
structure OrderLine where
  pk : ℕ
  quantity : ℕ
  variant : Option ℕ
  unit_price : TaxedMoney
  undiscounted_unit_price : TaxedMoney
  total_price : TaxedMoney
  undiscounted_total_price : TaxedMoney
  base_unit_price : ℚ
  undiscounted_base_unit_price : ℚ
  tax_rate : ℚ
  unit_discount_amount : ℚ
  deriving Repr, DecidableEq

/-- `TaxCalculationStrategy` from `saleor.tax`: flat rates or delegation to
a tax app. -/
inductive TaxCalculationStrategy where
  | flatRates
  | taxApp
  deriving Repr, DecidableEq

/-- An `Order` row together with the channel tax configuration the pipeline
reads (`channel.tax_configuration`), restricted to the fields the
recalculation pipeline touches. -/
structure Order where
  status : OrderStatus
  should_refresh_prices : Bool
  channel : ℕ
  voucher : Option Voucher
  voucher_code : Option String
  discounts : List Discount
  lines : List OrderLine
  tax_exemption : Bool
  prices_entered_with_tax : Bool
  charge_taxes : Bool
  tax_calculation_strategy : TaxCalculationStrategy
  total : TaxedMoney
  undiscounted_total : TaxedMoney
  shipping_price : TaxedMoney
  base_shipping_price : ℚ
  shipping_tax_rate : ℚ
  deriving Repr, DecidableEq

/-- `order.voucher_id`: truthy exactly when the order references a
voucher. -/
def Order.voucher_id (o : Order) : Option ℕ := o.voucher.map Voucher.id

/-- `_update_order_discount_for_voucher` from `saleor/order/calculations.py`
(lines 151-181).  Deletes every voucher-type discount when the order has no
voucher; otherwise, when no discount row carries the order's current voucher
code, creates one from the voucher's listing for the order's channel (and
silently skips when that listing is missing).  The trailing prefetch-cache
refresh touches no persisted state and is not embedded. -/
def updateOrderDiscountForVoucher (order : Order) : Order :=
  match order.voucher with
  | none =>
      { order with
        discounts := order.discounts.filter (fun d => d.type ≠ DiscountType.voucher) }
  | some voucher =>
      if (order.discounts.filter (fun d => d.voucher_code = order.voucher_code)).isEmpty
      then
        match (voucher.channel_listings.filter
            (fun l => l.channel = order.channel)).head? with
        | none => order
        | some voucher_channel_listing =>
            { order with
              discounts := order.discounts ++
                [{ type := DiscountType.voucher
                   value_type := voucher.discount_value_type
                   value := voucher_channel_listing.discount_value
                   reason := "Voucher: " ++ voucher.name
                   voucher := some voucher.id
                   voucher_code := order.voucher_code }] }
      else order

/-- The voucher-type discount records of an order. -/
def voucherDiscounts (order : Order) : List Discount :=
  order.discounts.filter (fun d => d.type = DiscountType.voucher)

/-- `TaxError` from `saleor.core.taxes`: the dedicated error type raised by
tax providers; carried as an `Except` error value in the embedding. -/
structure TaxError where
  message : String
  deriving Repr, DecidableEq

/-- `OrderTaxedPricesData` from `saleor.order.interface`: the pair of prices
a plugin returns for a line. -/
structure OrderTaxedPricesData where
  undiscounted_price : TaxedMoney
  price_with_discounts : TaxedMoney
  deriving Repr, DecidableEq

/-- `TaxLineData` from `saleor.core.taxes`: per-line amounts returned by a
tax app. -/
structure TaxLineData where
  id : ℕ
  unit_net_amount : ℚ
  unit_gross_amount : ℚ
  total_net_amount : ℚ
  total_gross_amount : ℚ
  tax_rate : ℚ
  deriving Repr, DecidableEq

/-- `TaxData` from `saleor.core.taxes`: the value object returned by a tax
app for a whole order or checkout. -/
structure TaxData where
  shipping_price_net_amount : ℚ
  shipping_price_gross_amount : ℚ
  shipping_tax_rate : ℚ
  subtotal_net_amount : ℚ
  subtotal_gross_amount : ℚ
  total_net_amount : ℚ
  total_gross_amount : ℚ
  lines : List TaxLineData
  deriving Repr, DecidableEq

/-- The plugin-manager calls `saleor/order/calculations.py` makes.  Calls the
source wraps in `try/except TaxError` return `Except TaxError`; the result is
consumed at the catch site.  `get_taxes_for_order` returns `TaxData | null`
(null also on provider failure, per the provider interface). -/
structure PluginsManager where
  calculate_order_line_unit : Order → OrderLine → Except TaxError OrderTaxedPricesData
  calculate_order_line_total : Order → OrderLine → Except TaxError OrderTaxedPricesData
  get_order_line_tax_rate : Order → TaxedMoney → Except TaxError ℚ
  calculate_order_shipping : Order → Except TaxError TaxedMoney
  get_order_shipping_tax_rate : Order → TaxedMoney → Except TaxError ℚ
  get_taxes_for_order : Order → Option TaxData

/-- Modelled from the spec: `normalize_tax_rate_for_db` from
`saleor/tax/utils.py` is not under `src/`; tax providers report percentage
rates while the data model stores "a decimal fraction, e.g. 0.23", so values
above 1 are divided by 100. -/
def normalize_tax_rate_for_db (tax_rate : ℚ) : ℚ :=
  if 1 < tax_rate then tax_rate / 100 else tax_rate

/-- Modelled from the spec: `get_tax_calculation_strategy_for_order` from
`saleor/tax/utils.py` is not under `src/`; the strategy (flat-rate or
tax-app) is "chosen by channel tax configuration". -/
def get_tax_calculation_strategy_for_order (order : Order) : TaxCalculationStrategy :=
  order.tax_calculation_strategy

/-- Modelled from the spec: `get_charge_taxes_for_order` from
`saleor/tax/utils.py` is not under `src/`; whether taxes are charged comes
from the channel tax configuration. -/
def get_charge_taxes_for_order (order : Order) : Bool :=
  order.charge_taxes

/-- The subtotal of a line collection: the sum of the lines' total prices. -/
def sumTotalPrices (lines : List OrderLine) : TaxedMoney :=
  (lines.map OrderLine.total_price).foldr (· + ·) zero_taxed_money

/-- Modelled from the spec: `PluginsManager.calculate_order_total` is not
under `src/`; per the spec the aggregator "combines per-line prices, shipping
price, and discounts into subtotal/total", with the invariant
`total = shipping_price + subtotal` after a successful recalculation, so the
order total is the shipping price plus the sum of the line total prices. -/
def calculate_order_total (order : Order) (lines : List OrderLine) : TaxedMoney :=
  order.shipping_price + sumTotalPrices lines

/-- Modelled from the spec: `base_calculations.apply_order_discounts` from
`saleor/order/base_calculations.py` is not under `src/`; per the spec it
applies order-level discounts to line base prices before tax,
"proportionally distributes an order-wide discount across lines by relative
weight" and reaggregates `total = shipping_price + subtotal` (exact rational
arithmetic makes the proportional shares sum exactly, which is what the
spec's last-line remainder adjustment guarantees under quantization). -/
def apply_order_discounts (order : Order) (lines : List OrderLine) :
    Order × List OrderLine :=
  let subtotalBase : ℚ := (lines.map (fun l => l.base_unit_price * (l.quantity : ℚ))).sum
  let discountRaw : ℚ := (order.discounts.map (fun d =>
      match d.value_type with
      | DiscountValueType.fixed => d.value
      | DiscountValueType.percentage => d.value * subtotalBase / 100)).sum
  let discountTotal : ℚ := min discountRaw subtotalBase
  let share : OrderLine → ℚ := fun l =>
      if subtotalBase = 0 then 0
      else discountTotal * (l.base_unit_price * (l.quantity : ℚ)) / subtotalBase
  let lines' := lines.map (fun l =>
      let discountedTotal : ℚ := l.base_unit_price * (l.quantity : ℚ) - share l
      let undiscountedTotal : ℚ := l.undiscounted_base_unit_price * (l.quantity : ℚ)
      { l with
        total_price := ⟨discountedTotal, discountedTotal⟩
        unit_price := ⟨discountedTotal / (l.quantity : ℚ), discountedTotal / (l.quantity : ℚ)⟩
        undiscounted_total_price := ⟨undiscountedTotal, undiscountedTotal⟩
        undiscounted_unit_price :=
          ⟨l.undiscounted_base_unit_price, l.undiscounted_base_unit_price⟩
        unit_discount_amount := share l / (l.quantity : ℚ) })
  let subtotal : ℚ := (lines'.map (fun l => l.total_price.net)).sum
  let undiscountedSubtotal : ℚ :=
    (lines'.map (fun l => l.undiscounted_total_price.net)).sum
  ({ order with
     shipping_price := ⟨order.base_shipping_price, order.base_shipping_price⟩
     total := ⟨order.base_shipping_price + subtotal,
               order.base_shipping_price + subtotal⟩
     undiscounted_total := ⟨order.base_shipping_price + undiscountedSubtotal,
                            order.base_shipping_price + undiscountedSubtotal⟩ },
   lines')

/-- The per-line body of the loop in `_apply_tax_data_from_plugins`
(`saleor/order/calculations.py` lines 192-214): each plugin call may raise
`TaxError`; assignments made before the failing call are kept, and the line's
undiscounted total is added to the running undiscounted subtotal (returned as
the second component) as soon as `calculate_order_line_total` succeeds. -/
def applyPluginsToLine (m : PluginsManager) (order : Order) (line : OrderLine) :
    OrderLine × TaxedMoney :=
  match line.variant with
  | none => (line, zero_taxed_money)
  | some _ =>
    match m.calculate_order_line_unit order line with
    | Except.error _ => (line, zero_taxed_money)
    | Except.ok line_unit =>
      let line := { line with
        undiscounted_unit_price := line_unit.undiscounted_price
        unit_price := line_unit.price_with_discounts }
      match m.calculate_order_line_total order line with
      | Except.error _ => (line, zero_taxed_money)
      | Except.ok line_total =>
        let line := { line with
          undiscounted_total_price := line_total.undiscounted_price
          total_price := line_total.price_with_discounts }
        match m.get_order_line_tax_rate order line_unit.undiscounted_price with
        | Except.error _ => (line, line_total.undiscounted_price)
        | Except.ok rate =>
            ({ line with tax_rate := rate }, line_total.undiscounted_price)

/-- `_apply_tax_data_from_plugins` (`saleor/order/calculations.py` lines
184-227): fetch taxes from plugins line by line and for shipping, swallowing
`TaxError` per call, then set the order's undiscounted total from the
accumulated undiscounted subtotal plus the base shipping price, and the order
total from `manager.calculate_order_total`. -/
def applyTaxDataFromPlugins (m : PluginsManager) (order : Order)
    (lines : List OrderLine) : Order × List OrderLine :=
  let results := lines.map (applyPluginsToLine m order)
  let lines' := results.map Prod.fst
  let undiscounted_subtotal :=
    (results.map Prod.snd).foldr (· + ·) zero_taxed_money
  let order :=
    match m.calculate_order_shipping order with
    | Except.error _ => order
    | Except.ok shipping =>
      let order := { order with shipping_price := shipping }
      match m.get_order_shipping_tax_rate order shipping with
      | Except.error _ => order
      | Except.ok rate => { order with shipping_tax_rate := rate }
  let order := { order with
    undiscounted_total := undiscounted_subtotal +
      (⟨order.base_shipping_price, order.base_shipping_price⟩ : TaxedMoney) }
  ({ order with total := calculate_order_total order lines' }, lines')

/-- The `zip` loop of `_apply_tax_data` (`saleor/order/calculations.py` lines
246-255): pairs each line with a tax-data entry (stopping at the shorter
list), sets the line total from the entry, derives the unit price by dividing
the total by the quantity, normalizes the tax rate, and accumulates the
subtotal of the paired totals. -/
def applyTaxDataLines (lines : List OrderLine) (taxLines : List TaxLineData) :
    List OrderLine × TaxedMoney :=
  match lines, taxLines with
  | line :: ls, t :: ts =>
    let line_total : TaxedMoney := ⟨t.total_net_amount, t.total_gross_amount⟩
    let line' := { line with
      total_price := line_total
      unit_price := line_total.divNat line.quantity
      tax_rate := normalize_tax_rate_for_db t.tax_rate }
    let rest := applyTaxDataLines ls ts
    (line' :: rest.1, line_total + rest.2)
  | ls, [] => (ls, zero_taxed_money)
  | [], _ :: _ => ([], zero_taxed_money)

/-- `_apply_tax_data` (`saleor/order/calculations.py` lines 230-257): when
tax data is present, overwrite the shipping price and tax rate, every paired
line's prices, and set `total = shipping_price + subtotal`; when tax data is
absent do nothing. -/
def applyTaxData (order : Order) (lines : List OrderLine)
    (tax_data : Option TaxData) : Order × List OrderLine :=
  match tax_data with
  | none => (order, lines)
  | some td =>
    let shipping_price : TaxedMoney :=
      ⟨td.shipping_price_net_amount, td.shipping_price_gross_amount⟩
    let order := { order with
      shipping_price := shipping_price
      shipping_tax_rate := normalize_tax_rate_for_db td.shipping_tax_rate }
    let applied := applyTaxDataLines lines td.lines
    ({ order with total := shipping_price + applied.2 }, applied.1)

/-- `_remove_tax` (`saleor/order/calculations.py` lines 260-275): force every
gross amount equal to the corresponding net amount and reset the shipping and
line tax rates to zero. -/
def removeTax (order : Order) (lines : List OrderLine) : Order × List OrderLine :=
  let order := { order with
    total := ⟨order.total.net, order.total.net⟩
    undiscounted_total := ⟨order.undiscounted_total.net, order.undiscounted_total.net⟩
    shipping_price := ⟨order.shipping_price.net, order.shipping_price.net⟩
    shipping_tax_rate := 0 }
  (order, lines.map (fun line =>
    { line with
      unit_price := ⟨line.unit_price.net, line.unit_price.net⟩
      undiscounted_unit_price :=
        ⟨line.undiscounted_unit_price.net, line.undiscounted_unit_price.net⟩
      total_price := ⟨line.total_price.net, line.total_price.net⟩
      undiscounted_total_price :=
        ⟨line.undiscounted_total_price.net, line.undiscounted_total_price.net⟩
      tax_rate := 0 }))

/-- Modelled from the spec: `update_order_prices_with_flat_rates` from
`saleor/tax/calculations/order.py` is not under `src/`; per the spec the
flat-rate strategy computes tax "locally using stored tax rates per
line/shipping, no external call": with tax-inclusive prices the net is
derived from the gross, otherwise the gross from the net, and the order
totals are reaggregated as shipping plus subtotal. -/
def update_order_prices_with_flat_rates (order : Order) (lines : List OrderLine)
    (prices_entered_with_tax : Bool) : Order × List OrderLine :=
  let adjust : TaxedMoney → ℚ → TaxedMoney := fun p r =>
    if prices_entered_with_tax then ⟨p.gross / (1 + r), p.gross⟩
    else ⟨p.net, p.net * (1 + r)⟩
  let lines' := lines.map (fun line =>
    { line with
      unit_price := adjust line.unit_price line.tax_rate
      total_price := adjust line.total_price line.tax_rate
      undiscounted_unit_price := adjust line.undiscounted_unit_price line.tax_rate
      undiscounted_total_price := adjust line.undiscounted_total_price line.tax_rate })
  let shipping := adjust order.shipping_price order.shipping_tax_rate
  let subtotal := sumTotalPrices lines'
  let undiscountedSubtotal :=
    (lines'.map OrderLine.undiscounted_total_price).foldr (· + ·) zero_taxed_money
  ({ order with
     shipping_price := shipping
     total := shipping + subtotal
     undiscounted_total := shipping + undiscountedSubtotal }, lines')

/-- `_calculate_and_add_tax` (`saleor/order/calculations.py` lines 133-148):
under the tax-app strategy, apply plugin taxes then tax-app data; otherwise
apply flat rates. -/
def calculateAndAddTax (tax_calculation_strategy : TaxCalculationStrategy)
    (order : Order) (lines : List OrderLine) (m : PluginsManager)
    (prices_entered_with_tax : Bool) : Order × List OrderLine :=
  match tax_calculation_strategy with
  | TaxCalculationStrategy.taxApp =>
    let stepped := applyTaxDataFromPlugins m order lines
    let tax_data := m.get_taxes_for_order stepped.1
    applyTaxData stepped.1 stepped.2 tax_data
  | TaxCalculationStrategy.flatRates =>
    update_order_prices_with_flat_rates order lines prices_entered_with_tax

/-- `_calculate_taxes` (`saleor/order/calculations.py` lines 97-130): with
tax-inclusive prices the tax is always calculated and then stripped when not
chargeable; with tax-exclusive prices it is calculated only when
chargeable. -/
def calculateTaxes (order : Order) (m : PluginsManager) (lines : List OrderLine) :
    Order × List OrderLine :=
  let tax_calculation_strategy := get_tax_calculation_strategy_for_order order
  let prices_entered_with_tax := order.prices_entered_with_tax
  let charge_taxes := get_charge_taxes_for_order order
  let should_charge_tax := charge_taxes && !order.tax_exemption
  if prices_entered_with_tax then
    let stepped :=
      calculateAndAddTax tax_calculation_strategy order lines m prices_entered_with_tax
    if !should_charge_tax then removeTax stepped.1 stepped.2 else stepped
  else
    if should_charge_tax then
      calculateAndAddTax tax_calculation_strategy order lines m prices_entered_with_tax
    else (order, lines)

/-- The outcome of `fetch_order_prices_and_update_if_expired`: the returned
order and lines, whether anything was persisted, and the `update_fields`
list passed to `order.save`. -/
structure FetchResult where
  order : Order
  lines : Option (List OrderLine)
  saved : Bool
  savedOrderFields : List String
  deriving Repr, DecidableEq

/-- The `update_fields` list of the `order.save` call
(`saleor/order/calculations.py` lines 61-72). -/
def orderUpdateFields : List String :=
  ["total_net_amount", "total_gross_amount", "undiscounted_total_net_amount",
   "undiscounted_total_gross_amount", "shipping_price_net_amount",
   "shipping_price_gross_amount", "shipping_tax_rate", "should_refresh_prices"]

/-- `fetch_order_prices_and_update_if_expired`
(`saleor/order/calculations.py` lines 29-94): skip non-editable orders, skip
when neither forced nor flagged stale, otherwise clear the staleness flag,
resolve the voucher discount, apply order discounts, calculate taxes, and
persist the order fields and the lines (the bulk line update is embedded as
replacing `order.lines`). -/
def fetch_order_prices_and_update_if_expired (order : Order) (m : PluginsManager)
    (lines? : Option (List OrderLine)) (force_update : Bool) : FetchResult :=
  if order.status ∉ ORDER_EDITABLE_STATUS then ⟨order, lines?, false, []⟩
  else if !force_update && !order.should_refresh_prices then ⟨order, lines?, false, []⟩
  else
    let lines := lines?.getD order.lines
    let order := { order with should_refresh_prices := false }
    let order := updateOrderDiscountForVoucher order
    let discounted := apply_order_discounts order lines
    let taxed := calculateTaxes discounted.1 m discounted.2
    ⟨{ taxed.1 with lines := taxed.2 }, some taxed.2, true, orderUpdateFields⟩

/-! ## Checkout side (`saleor/checkout/calculations.py`) -/

/-- A checkout line (`CheckoutLineInfo.line`), restricted to the fields the
checkout price pipeline reads and writes. -/
structure CheckoutLine where
  id : ℕ
  quantity : ℕ
  unit_price : TaxedMoney
  total_price : TaxedMoney
  deriving Repr, DecidableEq

/-- A `Checkout` row, restricted to the fields the price pipeline touches.
`gift_cards_balance` stands for the summed current balance of the attached
gift cards (the checkout model is not under `src/`). -/
structure Checkout where
  price_expiration : ℤ
  total : TaxedMoney
  subtotal : TaxedMoney
  shipping_price : TaxedMoney
  lines : List CheckoutLine
  gift_cards_balance : ℚ
  deriving Repr, DecidableEq

/-- Modelled from the spec: `Checkout.get_total_gift_cards_balance` (the
checkout model is not under `src/`) — the total balance of the checkout's
attached gift cards, as a plain money amount. -/
def Checkout.get_total_gift_cards_balance (c : Checkout) : ℚ :=
  c.gift_cards_balance

/-- Modelled from the spec: `quantize_price` from `saleor/core/prices.py` is
not under `src/`; quantization "rounds a monetary value to its currency's
minor-unit precision" with round-half-up, embedded at two decimal places. -/
def quantize2 (x : ℚ) : ℚ := (⌊x * 100 + 1 / 2⌋ : ℚ) / 100

/-- `quantize_price` applied to both components of a `TaxedMoney`. -/
def quantize_price (p : TaxedMoney) : TaxedMoney :=
  ⟨quantize2 p.net, quantize2 p.gross⟩

/-- The plugin-manager calls `saleor/checkout/calculations.py` makes (the
checkout-info, address and discount-info arguments are summarized by the
checkout and line state the plugins can read). -/
structure CheckoutPluginsManager where
  calculate_checkout_line_total : Checkout → List CheckoutLine → CheckoutLine → TaxedMoney
  calculate_checkout_line_unit_price : TaxedMoney → ℕ → TaxedMoney
  calculate_checkout_shipping : Checkout → List CheckoutLine → TaxedMoney
  calculate_checkout_subtotal : Checkout → List CheckoutLine → TaxedMoney
  calculate_checkout_total : Checkout → List CheckoutLine → TaxedMoney
  get_taxes_for_checkout : Checkout → Option TaxData

/-- The line loop of the checkout `_apply_tax_data_from_plugins`
(`saleor/checkout/calculations.py` lines 278-294): each line's total is
computed by the plugins (which see the lines updated so far), and its unit
price is derived from that total and the quantity. -/
def applyPluginsToCheckoutLines (m : CheckoutPluginsManager) (checkout : Checkout)
    (done todo : List CheckoutLine) : List CheckoutLine :=
  match todo with
  | [] => done
  | line :: rest =>
    let total := m.calculate_checkout_line_total checkout (done ++ line :: rest) line
    let line' := { line with
      total_price := total
      unit_price := m.calculate_checkout_line_unit_price total line.quantity }
    applyPluginsToCheckoutLines m checkout (done ++ [line']) rest

/-- The checkout `_apply_tax_data_from_plugins`
(`saleor/checkout/calculations.py` lines 270-304): update every line from
the plugins, then the checkout's shipping price, subtotal and total (each
call seeing the state mutated so far). -/
def applyTaxDataFromPluginsCheckout (m : CheckoutPluginsManager)
    (checkout : Checkout) (lines : List CheckoutLine) :
    Checkout × List CheckoutLine :=
  let lines' := applyPluginsToCheckoutLines m checkout [] lines
  let checkout := { checkout with
    shipping_price := m.calculate_checkout_shipping checkout lines' }
  let checkout := { checkout with
    subtotal := m.calculate_checkout_subtotal checkout lines' }
  let checkout := { checkout with
    total := m.calculate_checkout_total checkout lines' }
  (checkout, lines')

/-- The checkout `_apply_tax_data` (`saleor/checkout/calculations.py` lines
231-267): overwrite the checkout totals with quantized tax-data amounts and
update each line from the tax-data entry with the same id (the source builds
a dict keyed by id, so the last duplicate wins, and a line with no entry
raises a `KeyError`, embedded as `none`). -/
def applyTaxDataCheckout (checkout : Checkout) (lines : List CheckoutLine)
    (td : TaxData) : Option (Checkout × List CheckoutLine) :=
  let checkout := { checkout with
    total := quantize_price ⟨td.total_net_amount, td.total_gross_amount⟩
    subtotal := quantize_price ⟨td.subtotal_net_amount, td.subtotal_gross_amount⟩
    shipping_price :=
      quantize_price ⟨td.shipping_price_net_amount, td.shipping_price_gross_amount⟩ }
  match lines.mapM (fun line =>
      match (td.lines.filter (fun t => t.id = line.id)).getLast? with
      | none => none
      | some t => some { line with
          unit_price := quantize_price ⟨t.unit_net_amount, t.unit_gross_amount⟩
          total_price := quantize_price ⟨t.total_net_amount, t.total_gross_amount⟩ }) with
  | none => none
  | some lines' => some (checkout, lines')

/-- The outcome of `fetch_checkout_prices_if_expired`: the returned checkout,
the line collection, and whether anything was persisted.  `none` stands for a
propagated exception. -/
structure CheckoutFetchResult where
  checkout : Checkout
  lines : List CheckoutLine
  saved : Bool
  deriving Repr, DecidableEq

/-- `fetch_checkout_prices_if_expired` (`saleor/checkout/calculations.py`
lines 175-228): unless forced, the gate compares `price_expiration` with the
current time; past the gate, plugin prices and then tax-app data are applied,
`price_expiration` is pushed `CHECKOUT_PRICES_TTL` into the future, and the
checkout fields and lines are persisted (the bulk line update is embedded as
replacing `checkout.lines`).  `now` and `ttl` embed `timezone.now()` and
`settings.CHECKOUT_PRICES_TTL`. -/
def fetch_checkout_prices_if_expired (checkout : Checkout)
    (m : CheckoutPluginsManager) (lines : List CheckoutLine) (now ttl : ℤ)
    (force_update : Bool) : Option CheckoutFetchResult :=
  if ¬force_update ∧ checkout.price_expiration < now then
    some ⟨checkout, lines, false⟩
  else
    let stepped := applyTaxDataFromPluginsCheckout m checkout lines
    let afterTax :=
      match m.get_taxes_for_checkout stepped.1 with
      | some td => applyTaxDataCheckout stepped.1 stepped.2 td
      | none => some (stepped.1, stepped.2)
    match afterTax with
    | none => none
    | some st =>
        some ⟨{ st.1 with price_expiration := now + ttl, lines := st.2 }, st.2, true⟩

/-- `checkout_total` (`saleor/checkout/calculations.py` lines 83-104): the
checkout total after `fetch_checkout_prices_if_expired` (called without
forcing). -/
def checkout_total (m : CheckoutPluginsManager) (checkout : Checkout)
    (lines : List CheckoutLine) (now ttl : ℤ) : Option TaxedMoney :=
  (fetch_checkout_prices_if_expired checkout m lines now ttl false).map
    (fun r => r.checkout.total)

/-- Python `max` over `prices.TaxedMoney`, whose ordering compares the gross
amounts: `max(a, b)` is `b` exactly when `a < b`, i.e. when
`a.gross < b.gross`. -/
def maxTaxedMoney (a b : TaxedMoney) : TaxedMoney :=
  if a.gross < b.gross then b else a

/-- `calculate_checkout_total_with_gift_cards`
(`saleor/checkout/calculations.py` lines 62-80): the checkout total minus the
total gift-card balance, clamped with `max(..., zero_taxed_money)`. -/
def calculate_checkout_total_with_gift_cards (m : CheckoutPluginsManager)
    (checkout : Checkout) (lines : List CheckoutLine) (now ttl : ℤ) :
    Option TaxedMoney :=
  (checkout_total m checkout lines now ttl).map
    (fun total =>
      maxTaxedMoney (total.subMoney checkout.get_total_gift_cards_balance)
        zero_taxed_money)

/-! ## Concrete sample values used by witnesses and counterexamples -/

/-- A plugin manager whose every tax call fails with `TaxError` and that
returns no tax-app data: the all-failing provider of the error-handling
scenarios. -/
def failingManager : PluginsManager where
  calculate_order_line_unit := fun _ _ => Except.error ⟨"tax app down"⟩
  calculate_order_line_total := fun _ _ => Except.error ⟨"tax app down"⟩
  get_order_line_tax_rate := fun _ _ => Except.error ⟨"tax app down"⟩
  calculate_order_shipping := fun _ => Except.error ⟨"tax app down"⟩
  get_order_shipping_tax_rate := fun _ _ => Except.error ⟨"tax app down"⟩
  get_taxes_for_order := fun _ => none

/-- A sample order line: quantity 5, unit net 20, unit gross 24.60. -/
def sampleLine : OrderLine where
  pk := 1
  quantity := 5
  variant := some 7
  unit_price := ⟨20, 123 / 5⟩
  undiscounted_unit_price := ⟨20, 123 / 5⟩
  total_price := ⟨100, 123⟩
  undiscounted_total_price := ⟨100, 123⟩
  base_unit_price := 20
  undiscounted_base_unit_price := 20
  tax_rate := 23 / 100
  unit_discount_amount := 0

/-- A sample editable order with one line and flat-rate-free tax
configuration (taxes charged through the tax app). -/
def baseOrder : Order where
  status := OrderStatus.unconfirmed
  should_refresh_prices := true
  channel := 1
  voucher := none
  voucher_code := none
  discounts := []
  lines := [sampleLine]
  tax_exemption := false
  prices_entered_with_tax := false
  charge_taxes := true
  tax_calculation_strategy := TaxCalculationStrategy.taxApp
  total := ⟨110, 1353 / 10⟩
  undiscounted_total := ⟨110, 1353 / 10⟩
  shipping_price := ⟨10, 123 / 10⟩
  base_shipping_price := 10
  shipping_tax_rate := 23 / 100

/-- The voucher the sample order switches to: code CODE-B, listed for
channel 1. -/
def voucherB : Voucher where
  id := 2
  name := "B"
  discount_value_type := DiscountValueType.fixed
  channel_listings := [⟨1, 10⟩]

/-- A stale voucher-type discount record left over from a previous voucher
with code CODE-A. -/
def staleDiscountA : Discount where
  type := DiscountType.voucher
  value_type := DiscountValueType.fixed
  value := 5
  reason := "Voucher: A"
  voucher := some 1
  voucher_code := some "CODE-A"

/-- The sample order after its voucher was changed to `voucherB` (code
CODE-B) while the discount record for the previous code CODE-A is still
attached. -/
def orderWithSwappedVoucher : Order :=
  { baseOrder with
    voucher := some voucherB
    voucher_code := some "CODE-B"
    discounts := [staleDiscountA] }

/-- A voucher with no channel listing for channel 1 (the sample order's
channel). -/
def voucherUnlisted : Voucher where
  id := 3
  name := "C"
  discount_value_type := DiscountValueType.fixed
  channel_listings := [⟨2, 10⟩]

/-- A checkout plugin manager that computes zero prices and returns no
tax-app data (enough to drive the pipeline end to end). -/
def nullCheckoutManager : CheckoutPluginsManager where
  calculate_checkout_line_total := fun _ _ _ => zero_taxed_money
  calculate_checkout_line_unit_price := fun _ _ => zero_taxed_money
  calculate_checkout_shipping := fun _ _ => zero_taxed_money
  calculate_checkout_subtotal := fun _ _ => zero_taxed_money
  calculate_checkout_total := fun _ _ => zero_taxed_money
  get_taxes_for_checkout := fun _ => none

/-- A sample checkout whose stored prices expire at time 100; its stored
total is net 10 / gross 12.30 and it carries gift cards worth 11. -/
def sampleCheckout : Checkout where
  price_expiration := 100
  total := ⟨10, 123 / 10⟩
  subtotal := ⟨10, 123 / 10⟩
  shipping_price := ⟨0, 0⟩
  lines := []
  gift_cards_balance := 11

/-- Sample tax-app data for the one-line sample order: shipping
10.00/12.30, line total 110.00/135.30 at a 23 percent rate. -/
def sampleTaxData : TaxData where
  shipping_price_net_amount := 10
  shipping_price_gross_amount := 123 / 10
  shipping_tax_rate := 23
  subtotal_net_amount := 110
  subtotal_gross_amount := 1353 / 10
  total_net_amount := 120
  total_gross_amount := 1476 / 10
  lines := [{ id := 1
              unit_net_amount := 22
              unit_gross_amount := 1353 / 50
              total_net_amount := 110
              total_gross_amount := 1353 / 10
              tax_rate := 23 }]

/-!
## Theorems
-/

/-- C6: for every order whose status is not in `ORDER_EDITABLE_STATUS`,
`fetch_order_prices_and_update_if_expired` returns the given order and lines
unchanged and writes nothing — no discount resolution, no tax calculation, no
persisted field changes — regardless of the staleness indicator and even when
`force_update` is true. -/
theorem non_editable_order_is_left_untouched (order : Order) (m : PluginsManager)
    (lines? : Option (List OrderLine)) (force_update : Bool)
    (h : order.status ∉ ORDER_EDITABLE_STATUS) :
    fetch_order_prices_and_update_if_expired order m lines? force_update =
      ⟨order, lines?, false, []⟩ := by
  simp [fetch_order_prices_and_update_if_expired, h]

/-- Witness for C6: a fulfilled order, stale and forced, passes through
untouched. -/
theorem non_editable_order_is_left_untouched_witness :
    ({ baseOrder with status := OrderStatus.fulfilled } : Order).status ∉
        ORDER_EDITABLE_STATUS ∧
    fetch_order_prices_and_update_if_expired
        { baseOrder with status := OrderStatus.fulfilled } failingManager none true =
      ⟨{ baseOrder with status := OrderStatus.fulfilled }, none, false, []⟩ :=
  ⟨by decide, non_editable_order_is_left_untouched _ _ _ _ (by decide)⟩

/-- C8: for every order that references a voucher whose channel listings
contain no listing for the order's channel,
`_update_order_discount_for_voucher` creates no discount record and raises no
error — the discounts are returned unchanged (the embedding is a total
function, so no exception can propagate). -/
theorem voucher_without_channel_listing_creates_no_discount (order : Order)
    (v : Voucher) (hv : order.voucher = some v)
    (hl : v.channel_listings.filter (fun l => l.channel = order.channel) = []) :
    (updateOrderDiscountForVoucher order).discounts = order.discounts := by
  unfold updateOrderDiscountForVoucher
  rw [hv]
  cases hemp :
      (order.discounts.filter (fun d => d.voucher_code = order.voucher_code)).isEmpty
  · simp [hemp]
  · simp [hemp, hl]

/-- Witness for C8: the sample order referencing `voucherUnlisted` (listed
only for channel 2, while the order is on channel 1) keeps its discounts
unchanged. -/
theorem voucher_without_channel_listing_creates_no_discount_witness :
    ({ baseOrder with
        voucher := some voucherUnlisted
        voucher_code := some "CODE-C"
        discounts := [staleDiscountA] } : Order).voucher = some voucherUnlisted ∧
    voucherUnlisted.channel_listings.filter
        (fun l => l.channel =
          ({ baseOrder with
              voucher := some voucherUnlisted
              voucher_code := some "CODE-C"
              discounts := [staleDiscountA] } : Order).channel) = [] ∧
    (updateOrderDiscountForVoucher
        { baseOrder with
          voucher := some voucherUnlisted
          voucher_code := some "CODE-C"
          discounts := [staleDiscountA] }).discounts = [staleDiscountA] :=
  ⟨rfl, by decide,
    voucher_without_channel_listing_creates_no_discount _ _ rfl (by decide)⟩

/-- C2: concrete failing input for the voucher-swap half of the claim.  The
order's voucher was changed to `voucherB` (code CODE-B, listed for the
order's channel) while the voucher-type record for the previous code CODE-A
is still attached; the resolver creates a record for CODE-B but never deletes
the CODE-A record, leaving two voucher-type discounts where the claim
requires exactly one. -/
theorem voucher_change_keeps_stale_discount_record :
    (voucherDiscounts (updateOrderDiscountForVoucher orderWithSwappedVoucher)).length
        = 2 ∧
    staleDiscountA ∈ (updateOrderDiscountForVoucher orderWithSwappedVoucher).discounts ∧
    ((updateOrderDiscountForVoucher orderWithSwappedVoucher).discounts.any
        (fun d => d.voucher_code = some "CODE-B")) = true := by
  decide

/-- C1: the checkout staleness gate is inverted.  With `force_update = false`
and the prices already expired (`price_expiration = 100`, now `= 200`) the
source returns the checkout unchanged and persists nothing, while with the
prices still fresh (now `= 50`) it recomputes and persists — the opposite of
the claim and of the function's own docstring («prices can be updated only if
force_update == True, or if time elapsed from the last price update is
greater than settings.CHECKOUT_PRICES_TTL»). -/
theorem checkout_gate_is_inverted :
    fetch_checkout_prices_if_expired sampleCheckout nullCheckoutManager [] 200 3600
        false = some ⟨sampleCheckout, [], false⟩ ∧
    (fetch_checkout_prices_if_expired sampleCheckout nullCheckoutManager [] 50 3600
        false).map CheckoutFetchResult.saved = some true :=
  ⟨rfl, rfl⟩

/-- C10: concrete refutation of "the returned TaxedMoney is never negative".
The sample checkout's stored total is net 10 / gross 12.30 and its gift-card
balance 11; the clamp compares gross amounts only, so
`calculate_checkout_total_with_gift_cards` returns net -1 / gross 1.30 — a
TaxedMoney with a negative net component. -/
theorem gift_card_total_can_have_negative_net :
    calculate_checkout_total_with_gift_cards nullCheckoutManager sampleCheckout []
        200 3600 = some ⟨-1, 13 / 10⟩ ∧ (-1 : ℚ) < 0 := by
  refine ⟨?_, by norm_num⟩
  show some (maxTaxedMoney (TaxedMoney.subMoney ⟨10, 123 / 10⟩ 11) zero_taxed_money)
      = _
  have hc : ¬(TaxedMoney.subMoney ⟨10, 123 / 10⟩ 11).gross < zero_taxed_money.gross := by
    simp only [TaxedMoney.subMoney, zero_taxed_money]
    norm_num
  unfold maxTaxedMoney
  rw [if_neg hc]
  simp only [TaxedMoney.subMoney, Option.some.injEq, TaxedMoney.mk.injEq]
  norm_num

/-- C10 (amended): the clamp compares gross amounts, so whenever
`calculate_checkout_total_with_gift_cards` returns a value its gross
component is never negative, even when the gift-card balance exceeds the
checkout total; only the net component can go negative. -/
theorem gift_card_total_gross_never_negative (m : CheckoutPluginsManager)
    (checkout : Checkout) (lines : List CheckoutLine) (now ttl : ℤ)
    (r : TaxedMoney)
    (h : calculate_checkout_total_with_gift_cards m checkout lines now ttl = some r) :
    0 ≤ r.gross := by
  simp only [calculate_checkout_total_with_gift_cards, Option.map_eq_some'] at h
  obtain ⟨t, -, hr⟩ := h
  subst hr
  unfold maxTaxedMoney
  split
  · norm_num [zero_taxed_money]
  · next hlt => exact le_of_not_lt (by simpa [zero_taxed_money] using hlt)

/-- Witness for C10's amended theorem at the concrete counterexample input:
the returned gross 1.30 is nonnegative. -/
theorem gift_card_total_gross_never_negative_witness :
    calculate_checkout_total_with_gift_cards nullCheckoutManager sampleCheckout []
        200 3600 = some ⟨-1, 13 / 10⟩ ∧ (0 : ℚ) ≤ (⟨-1, 13 / 10⟩ : TaxedMoney).gross := by
  have h : calculate_checkout_total_with_gift_cards nullCheckoutManager sampleCheckout
      [] 200 3600 = some ⟨-1, 13 / 10⟩ := by
    show some (maxTaxedMoney (TaxedMoney.subMoney ⟨10, 123 / 10⟩ 11) zero_taxed_money)
        = _
    have hc : ¬(TaxedMoney.subMoney ⟨10, 123 / 10⟩ 11).gross <
        zero_taxed_money.gross := by
      simp only [TaxedMoney.subMoney, zero_taxed_money]
      norm_num
    unfold maxTaxedMoney
    rw [if_neg hc]
    simp only [TaxedMoney.subMoney, Option.some.injEq, TaxedMoney.mk.injEq]
    norm_num
  exact ⟨h, gift_card_total_gross_never_negative nullCheckoutManager sampleCheckout []
    200 3600 ⟨-1, 13 / 10⟩ h⟩

/-- C5: for every order whose channel has prices entered with tax and for
which taxes are not chargeable (charge_taxes disabled or the order
tax-exempt), after `_calculate_taxes` every line's gross amounts equal the
corresponding net amounts, every line's tax rate is exactly 0, the order's
total and undiscounted-total gross amounts equal their net amounts, the
shipping gross equals the shipping net, and the shipping tax rate is
exactly 0. -/
theorem tax_inclusive_not_chargeable_strips_tax (order : Order) (m : PluginsManager)
    (lines : List OrderLine)
    (hp : order.prices_entered_with_tax = true)
    (hc : order.charge_taxes = false ∨ order.tax_exemption = true) :
    ((calculateTaxes order m lines).1.total.gross
        = (calculateTaxes order m lines).1.total.net ∧
      (calculateTaxes order m lines).1.undiscounted_total.gross
        = (calculateTaxes order m lines).1.undiscounted_total.net ∧
      (calculateTaxes order m lines).1.shipping_price.gross
        = (calculateTaxes order m lines).1.shipping_price.net ∧
      (calculateTaxes order m lines).1.shipping_tax_rate = 0) ∧
    ∀ line ∈ (calculateTaxes order m lines).2,
      line.unit_price.gross = line.unit_price.net ∧
      line.undiscounted_unit_price.gross = line.undiscounted_unit_price.net ∧
      line.total_price.gross = line.total_price.net ∧
      line.undiscounted_total_price.gross = line.undiscounted_total_price.net ∧
      line.tax_rate = 0 := by
  have hsc : (get_charge_taxes_for_order order && !order.tax_exemption) = false := by
    rcases hc with h | h <;> simp [get_charge_taxes_for_order, h]
  simp only [calculateTaxes, hp, hsc, Bool.not_false, if_true]
  refine ⟨⟨rfl, rfl, rfl, rfl⟩, ?_⟩
  intro line hline
  simp only [removeTax, List.mem_map] at hline
  obtain ⟨l, -, rfl⟩ := hline
  exact ⟨rfl, rfl, rfl, rfl, rfl⟩

/-- Witness for C5: the sample order with tax-inclusive prices and
`charge_taxes` disabled, driven through the all-failing manager. -/
theorem tax_inclusive_not_chargeable_strips_tax_witness :
    ({ baseOrder with
        prices_entered_with_tax := true
        charge_taxes := false } : Order).prices_entered_with_tax = true ∧
    (((calculateTaxes { baseOrder with
          prices_entered_with_tax := true
          charge_taxes := false } failingManager [sampleLine]).1.total.gross
        = (calculateTaxes { baseOrder with
            prices_entered_with_tax := true
            charge_taxes := false } failingManager [sampleLine]).1.total.net ∧
      (calculateTaxes { baseOrder with
          prices_entered_with_tax := true
          charge_taxes := false } failingManager [sampleLine]).1.undiscounted_total.gross
        = (calculateTaxes { baseOrder with
            prices_entered_with_tax := true
            charge_taxes := false } failingManager
              [sampleLine]).1.undiscounted_total.net ∧
      (calculateTaxes { baseOrder with
          prices_entered_with_tax := true
          charge_taxes := false } failingManager [sampleLine]).1.shipping_price.gross
        = (calculateTaxes { baseOrder with
            prices_entered_with_tax := true
            charge_taxes := false } failingManager [sampleLine]).1.shipping_price.net ∧
      (calculateTaxes { baseOrder with
          prices_entered_with_tax := true
          charge_taxes := false } failingManager [sampleLine]).1.shipping_tax_rate
        = 0) ∧
    ∀ line ∈ (calculateTaxes { baseOrder with
        prices_entered_with_tax := true
        charge_taxes := false } failingManager [sampleLine]).2,
      line.unit_price.gross = line.unit_price.net ∧
      line.undiscounted_unit_price.gross = line.undiscounted_unit_price.net ∧
      line.total_price.gross = line.total_price.net ∧
      line.undiscounted_total_price.gross = line.undiscounted_total_price.net ∧
      line.tax_rate = 0) :=
  ⟨rfl, tax_inclusive_not_chargeable_strips_tax _ failingManager [sampleLine] rfl
    (Or.inl rfl)⟩

/-- The zip loop of `_apply_tax_data` keeps the number of lines. -/
theorem applyTaxDataLines_length (lines : List OrderLine)
    (taxLines : List TaxLineData) :
    (applyTaxDataLines lines taxLines).1.length = lines.length := by
  induction lines generalizing taxLines with
  | nil => cases taxLines <;> rfl
  | cons l ls ih =>
    cases taxLines with
    | nil => rfl
    | cons t ts => simpa [applyTaxDataLines] using ih ts

/-- The i-th line produced by the zip loop of `_apply_tax_data`: the paired
tax entry's total, the unit price derived by dividing that total by the
line's quantity, and the normalized tax rate, over the original line. -/
theorem applyTaxDataLines_get (lines : List OrderLine) (taxLines : List TaxLineData)
    (i : ℕ) (h1 : i < lines.length) (h2 : i < taxLines.length)
    (h3 : i < (applyTaxDataLines lines taxLines).1.length) :
    (applyTaxDataLines lines taxLines).1.get ⟨i, h3⟩ =
      { lines.get ⟨i, h1⟩ with
        total_price := ⟨(taxLines.get ⟨i, h2⟩).total_net_amount,
                        (taxLines.get ⟨i, h2⟩).total_gross_amount⟩
        unit_price := TaxedMoney.divNat
          ⟨(taxLines.get ⟨i, h2⟩).total_net_amount,
           (taxLines.get ⟨i, h2⟩).total_gross_amount⟩ (lines.get ⟨i, h1⟩).quantity
        tax_rate := normalize_tax_rate_for_db (taxLines.get ⟨i, h2⟩).tax_rate } := by
  induction lines generalizing taxLines i with
  | nil => exact absurd h1 (by simp)
  | cons l ls ih =>
    cases taxLines with
    | nil => exact absurd h2 (by simp)
    | cons t ts =>
      cases i with
      | zero => rfl
      | succ n =>
        have hn1 : n < ls.length := by simpa using h1
        have hn2 : n < ts.length := by simpa using h2
        have hn3 : n < (applyTaxDataLines ls ts).1.length := by
          rw [applyTaxDataLines_length]
          exact hn1
        exact ih ts n hn1 hn2 hn3

/-- C9: for every order line paired with a tax-provider entry in
`_apply_tax_data`, the resulting unit price equals the resulting total price
divided by the line's quantity, so unit price times quantity and total price
agree (exactly, in the unrounded rational embedding — hence within one
rounding unit after quantization). -/
theorem unit_price_is_total_divided_by_quantity (order : Order)
    (lines : List OrderLine) (td : TaxData) (i : ℕ)
    (h1 : i < lines.length) (h2 : i < td.lines.length)
    (hq : 0 < (lines.get ⟨i, h1⟩).quantity)
    (h3 : i < (applyTaxData order lines (some td)).2.length) :
    ((applyTaxData order lines (some td)).2.get ⟨i, h3⟩).unit_price
        = TaxedMoney.divNat
            (((applyTaxData order lines (some td)).2.get ⟨i, h3⟩).total_price)
            (((applyTaxData order lines (some td)).2.get ⟨i, h3⟩).quantity) ∧
    ((applyTaxData order lines (some td)).2.get ⟨i, h3⟩).unit_price.net
        * ((((applyTaxData order lines (some td)).2.get ⟨i, h3⟩).quantity : ℕ) : ℚ)
      = ((applyTaxData order lines (some td)).2.get ⟨i, h3⟩).total_price.net ∧
    ((applyTaxData order lines (some td)).2.get ⟨i, h3⟩).unit_price.gross
        * ((((applyTaxData order lines (some td)).2.get ⟨i, h3⟩).quantity : ℕ) : ℚ)
      = ((applyTaxData order lines (some td)).2.get ⟨i, h3⟩).total_price.gross := by
  have h3' : i < (applyTaxDataLines lines td.lines).1.length := h3
  have hcast : ((lines.get ⟨i, h1⟩).quantity : ℚ) ≠ 0 := by
    exact_mod_cast Nat.pos_iff_ne_zero.mp hq
  have hget : (applyTaxData order lines (some td)).2.get ⟨i, h3⟩
      = { lines.get ⟨i, h1⟩ with
          total_price := ⟨(td.lines.get ⟨i, h2⟩).total_net_amount,
                          (td.lines.get ⟨i, h2⟩).total_gross_amount⟩
          unit_price := TaxedMoney.divNat
            ⟨(td.lines.get ⟨i, h2⟩).total_net_amount,
             (td.lines.get ⟨i, h2⟩).total_gross_amount⟩ (lines.get ⟨i, h1⟩).quantity
          tax_rate := normalize_tax_rate_for_db (td.lines.get ⟨i, h2⟩).tax_rate } :=
    applyTaxDataLines_get lines td.lines i h1 h2 h3'
  rw [hget]
  refine ⟨rfl, ?_, ?_⟩ <;>
    · simp only [TaxedMoney.divNat]
      exact div_mul_cancel₀ _ hcast

/-- Witness for C9 at the sample order, its one line (quantity 5) and the
sample tax data. -/
theorem unit_price_is_total_divided_by_quantity_witness :
    0 < (([sampleLine] : List OrderLine).get ⟨0, by decide⟩).quantity ∧
    (((applyTaxData baseOrder [sampleLine] (some sampleTaxData)).2.get
          ⟨0, by decide⟩).unit_price
        = TaxedMoney.divNat
            (((applyTaxData baseOrder [sampleLine] (some sampleTaxData)).2.get
                ⟨0, by decide⟩).total_price)
            (((applyTaxData baseOrder [sampleLine] (some sampleTaxData)).2.get
                ⟨0, by decide⟩).quantity) ∧
      ((applyTaxData baseOrder [sampleLine] (some sampleTaxData)).2.get
            ⟨0, by decide⟩).unit_price.net
          * ((((applyTaxData baseOrder [sampleLine] (some sampleTaxData)).2.get
                ⟨0, by decide⟩).quantity : ℕ) : ℚ)
        = ((applyTaxData baseOrder [sampleLine] (some sampleTaxData)).2.get
              ⟨0, by decide⟩).total_price.net ∧
      ((applyTaxData baseOrder [sampleLine] (some sampleTaxData)).2.get
            ⟨0, by decide⟩).unit_price.gross
          * ((((applyTaxData baseOrder [sampleLine] (some sampleTaxData)).2.get
                ⟨0, by decide⟩).quantity : ℕ) : ℚ)
        = ((applyTaxData baseOrder [sampleLine] (some sampleTaxData)).2.get
              ⟨0, by decide⟩).total_price.gross) :=
  ⟨by decide, unit_price_is_total_divided_by_quantity baseOrder [sampleLine]
    sampleTaxData 0 (by decide) (by decide) (by decide) (by decide)⟩

@[simp] theorem sumTotalPrices_nil : sumTotalPrices [] = zero_taxed_money := rfl

@[simp] theorem sumTotalPrices_cons (l : OrderLine) (ls : List OrderLine) :
    sumTotalPrices (l :: ls) = l.total_price + sumTotalPrices ls := rfl

/-- The voucher discount resolver touches only the discount records: order
status, staleness flag and tax configuration are unchanged. -/
theorem updateOrderDiscountForVoucher_preserves (o : Order) :
    (updateOrderDiscountForVoucher o).status = o.status ∧
    (updateOrderDiscountForVoucher o).should_refresh_prices
      = o.should_refresh_prices ∧
    (updateOrderDiscountForVoucher o).prices_entered_with_tax
      = o.prices_entered_with_tax ∧
    (updateOrderDiscountForVoucher o).charge_taxes = o.charge_taxes ∧
    (updateOrderDiscountForVoucher o).tax_exemption = o.tax_exemption ∧
    (updateOrderDiscountForVoucher o).tax_calculation_strategy
      = o.tax_calculation_strategy ∧
    (updateOrderDiscountForVoucher o).lines = o.lines := by
  unfold updateOrderDiscountForVoucher
  rcases o.voucher with _ | v
  · exact ⟨rfl, rfl, rfl, rfl, rfl, rfl, rfl⟩
  · dsimp only
    by_cases hemp :
        (o.discounts.filter (fun d => d.voucher_code = o.voucher_code)).isEmpty = true
    · rw [if_pos hemp]
      split
      · exact ⟨rfl, rfl, rfl, rfl, rfl, rfl, rfl⟩
      · exact ⟨rfl, rfl, rfl, rfl, rfl, rfl, rfl⟩
    · rw [if_neg hemp]
      exact ⟨rfl, rfl, rfl, rfl, rfl, rfl, rfl⟩

/-- The order-discount application touches only price fields. -/
theorem apply_order_discounts_preserves (o : Order) (ls : List OrderLine) :
    (apply_order_discounts o ls).1.status = o.status ∧
    (apply_order_discounts o ls).1.should_refresh_prices
      = o.should_refresh_prices ∧
    (apply_order_discounts o ls).1.prices_entered_with_tax
      = o.prices_entered_with_tax ∧
    (apply_order_discounts o ls).1.charge_taxes = o.charge_taxes ∧
    (apply_order_discounts o ls).1.tax_exemption = o.tax_exemption ∧
    (apply_order_discounts o ls).1.tax_calculation_strategy
      = o.tax_calculation_strategy :=
  ⟨rfl, rfl, rfl, rfl, rfl, rfl⟩

/-- The order-discount application keeps the number of lines. -/
theorem apply_order_discounts_length (o : Order) (ls : List OrderLine) :
    (apply_order_discounts o ls).2.length = ls.length := by
  simp [apply_order_discounts]

/-- `_apply_tax_data_from_plugins` touches only price fields of the order. -/
theorem applyTaxDataFromPlugins_preserves (m : PluginsManager) (o : Order)
    (ls : List OrderLine) :
    (applyTaxDataFromPlugins m o ls).1.status = o.status ∧
    (applyTaxDataFromPlugins m o ls).1.should_refresh_prices
      = o.should_refresh_prices := by
  simp only [applyTaxDataFromPlugins]
  constructor <;>
  · split
    · rfl
    · split
      · rfl
      · rfl

/-- `_apply_tax_data_from_plugins` keeps the number of lines. -/
theorem applyTaxDataFromPlugins_length (m : PluginsManager) (o : Order)
    (ls : List OrderLine) :
    (applyTaxDataFromPlugins m o ls).2.length = ls.length := by
  simp [applyTaxDataFromPlugins]

/-- `_apply_tax_data` touches only price fields of the order. -/
theorem applyTaxData_preserves (o : Order) (ls : List OrderLine)
    (td? : Option TaxData) :
    (applyTaxData o ls td?).1.status = o.status ∧
    (applyTaxData o ls td?).1.should_refresh_prices = o.should_refresh_prices := by
  cases td? <;> exact ⟨rfl, rfl⟩

/-- `_calculate_and_add_tax` touches only price fields of the order. -/
theorem calculateAndAddTax_preserves (strat : TaxCalculationStrategy) (o : Order)
    (ls : List OrderLine) (m : PluginsManager) (pew : Bool) :
    (calculateAndAddTax strat o ls m pew).1.status = o.status ∧
    (calculateAndAddTax strat o ls m pew).1.should_refresh_prices
      = o.should_refresh_prices := by
  cases strat with
  | flatRates => exact ⟨rfl, rfl⟩
  | taxApp =>
    simp only [calculateAndAddTax]
    have h1 := applyTaxDataFromPlugins_preserves m o ls
    have h2 := applyTaxData_preserves (applyTaxDataFromPlugins m o ls).1
      (applyTaxDataFromPlugins m o ls).2
      (m.get_taxes_for_order (applyTaxDataFromPlugins m o ls).1)
    exact ⟨h2.1.trans h1.1, h2.2.trans h1.2⟩

/-- `_calculate_taxes` touches only price fields of the order. -/
theorem calculateTaxes_preserves (o : Order) (m : PluginsManager)
    (ls : List OrderLine) :
    (calculateTaxes o m ls).1.status = o.status ∧
    (calculateTaxes o m ls).1.should_refresh_prices = o.should_refresh_prices := by
  simp only [calculateTaxes]
  refine ⟨?_, ?_⟩
  · split
    · split
      · exact (calculateAndAddTax_preserves _ _ _ _ _).1
      · exact (calculateAndAddTax_preserves _ _ _ _ _).1
    · split
      · exact (calculateAndAddTax_preserves _ _ _ _ _).1
      · rfl
  · split
    · split
      · exact (calculateAndAddTax_preserves _ _ _ _ _).2
      · exact (calculateAndAddTax_preserves _ _ _ _ _).2
    · split
      · exact (calculateAndAddTax_preserves _ _ _ _ _).2
      · rfl

/-- Past both guards, `fetch_order_prices_and_update_if_expired` runs the
full recalculation pipeline: clear the staleness flag, resolve the voucher
discount, apply order discounts, calculate taxes, persist. -/
theorem fetch_recalculates (order : Order) (m : PluginsManager)
    (lines? : Option (List OrderLine)) (force_update : Bool)
    (hstat : order.status ∈ ORDER_EDITABLE_STATUS)
    (hstale : force_update = true ∨ order.should_refresh_prices = true) :
    fetch_order_prices_and_update_if_expired order m lines? force_update =
      ⟨{ (calculateTaxes
            (apply_order_discounts
              (updateOrderDiscountForVoucher
                { order with should_refresh_prices := false })
              (lines?.getD order.lines)).1 m
            (apply_order_discounts
              (updateOrderDiscountForVoucher
                { order with should_refresh_prices := false })
              (lines?.getD order.lines)).2).1 with
          lines := (calculateTaxes
            (apply_order_discounts
              (updateOrderDiscountForVoucher
                { order with should_refresh_prices := false })
              (lines?.getD order.lines)).1 m
            (apply_order_discounts
              (updateOrderDiscountForVoucher
                { order with should_refresh_prices := false })
              (lines?.getD order.lines)).2).2 },
       some (calculateTaxes
            (apply_order_discounts
              (updateOrderDiscountForVoucher
                { order with should_refresh_prices := false })
              (lines?.getD order.lines)).1 m
            (apply_order_discounts
              (updateOrderDiscountForVoucher
                { order with should_refresh_prices := false })
              (lines?.getD order.lines)).2).2,
       true, orderUpdateFields⟩ := by
  have h2 : ¬((!force_update && !order.should_refresh_prices) = true) := by
    rcases hstale with h | h <;> simp [h]
  simp only [fetch_order_prices_and_update_if_expired]
  rw [if_neg (not_not_intro hstat), if_neg h2]

/-- After both guards pass, the returned order keeps its status, has its
staleness flag cleared, and the saved field list is the source's
`update_fields` list. -/
theorem fetch_recalc_order_status_flag (order : Order) (m : PluginsManager)
    (lines? : Option (List OrderLine)) (force_update : Bool)
    (hstat : order.status ∈ ORDER_EDITABLE_STATUS)
    (hstale : force_update = true ∨ order.should_refresh_prices = true) :
    (fetch_order_prices_and_update_if_expired order m lines? force_update).order.status
        = order.status ∧
    (fetch_order_prices_and_update_if_expired order m lines?
        force_update).order.should_refresh_prices = false ∧
    (fetch_order_prices_and_update_if_expired order m lines?
        force_update).savedOrderFields = orderUpdateFields ∧
    (fetch_order_prices_and_update_if_expired order m lines? force_update).saved
        = true := by
  rw [fetch_recalculates order m lines? force_update hstat hstale]
  refine ⟨?_, ?_, rfl, rfl⟩
  · show (calculateTaxes
        (apply_order_discounts
          (updateOrderDiscountForVoucher { order with should_refresh_prices := false })
          (lines?.getD order.lines)).1 m
        (apply_order_discounts
          (updateOrderDiscountForVoucher { order with should_refresh_prices := false })
          (lines?.getD order.lines)).2).1.status = order.status
    rw [(calculateTaxes_preserves _ _ _).1, (apply_order_discounts_preserves _ _).1,
      (updateOrderDiscountForVoucher_preserves _).1]
  · show (calculateTaxes
        (apply_order_discounts
          (updateOrderDiscountForVoucher { order with should_refresh_prices := false })
          (lines?.getD order.lines)).1 m
        (apply_order_discounts
          (updateOrderDiscountForVoucher { order with should_refresh_prices := false })
          (lines?.getD order.lines)).2).1.should_refresh_prices = false
    rw [(calculateTaxes_preserves _ _ _).2, (apply_order_discounts_preserves _ _).2.1,
      (updateOrderDiscountForVoucher_preserves _).2.1]

/-- With the staleness flag clear and no forcing, a fetch is a no-op for any
status. -/
theorem fetch_noop_when_not_stale (order : Order) (m : PluginsManager)
    (lines? : Option (List OrderLine))
    (h : order.should_refresh_prices = false) :
    fetch_order_prices_and_update_if_expired order m lines? false =
      ⟨order, lines?, false, []⟩ := by
  simp only [fetch_order_prices_and_update_if_expired]
  by_cases hstat : order.status ∉ ORDER_EDITABLE_STATUS
  · rw [if_pos hstat]
  · rw [if_neg hstat, if_pos (by simp [h])]

/-- C7: for every editable order, after a recalculation by
`fetch_order_prices_and_update_if_expired` completes, the returned order's
`should_refresh_prices` flag is false and the flag is among the persisted
fields, so an immediately following call with `force_update = false` and no
intervening state change returns the order and lines unchanged as a no-op
(with any plugin manager, which the gate never consults). -/
theorem recalculation_clears_staleness_and_repeat_is_noop (order : Order)
    (m : PluginsManager) (lines? : Option (List OrderLine)) (force_update : Bool)
    (hstat : order.status ∈ ORDER_EDITABLE_STATUS)
    (hstale : force_update = true ∨ order.should_refresh_prices = true) :
    (fetch_order_prices_and_update_if_expired order m lines?
        force_update).order.should_refresh_prices = false ∧
    "should_refresh_prices" ∈
      (fetch_order_prices_and_update_if_expired order m lines?
        force_update).savedOrderFields ∧
    ∀ m' : PluginsManager,
      fetch_order_prices_and_update_if_expired
          (fetch_order_prices_and_update_if_expired order m lines? force_update).order
          m'
          (fetch_order_prices_and_update_if_expired order m lines?
            force_update).lines false =
        ⟨(fetch_order_prices_and_update_if_expired order m lines? force_update).order,
         (fetch_order_prices_and_update_if_expired order m lines? force_update).lines,
         false, []⟩ := by
  obtain ⟨hstatus, hflag, hfields, -⟩ :=
    fetch_recalc_order_status_flag order m lines? force_update hstat hstale
  refine ⟨hflag, ?_, ?_⟩
  · rw [hfields]
    decide
  · intro m'
    exact fetch_noop_when_not_stale _ m' _ hflag

/-- Witness for C7: the stale sample order, recalculated through the
all-failing manager, with the conclusion instantiated. -/
theorem recalculation_clears_staleness_and_repeat_is_noop_witness :
    baseOrder.status ∈ ORDER_EDITABLE_STATUS ∧
    ((fetch_order_prices_and_update_if_expired baseOrder failingManager none
        false).order.should_refresh_prices = false ∧
    "should_refresh_prices" ∈
      (fetch_order_prices_and_update_if_expired baseOrder failingManager none
        false).savedOrderFields ∧
    ∀ m' : PluginsManager,
      fetch_order_prices_and_update_if_expired
          (fetch_order_prices_and_update_if_expired baseOrder failingManager none
            false).order m'
          (fetch_order_prices_and_update_if_expired baseOrder failingManager none
            false).lines false =
        ⟨(fetch_order_prices_and_update_if_expired baseOrder failingManager none
            false).order,
         (fetch_order_prices_and_update_if_expired baseOrder failingManager none
            false).lines, false, []⟩) :=
  ⟨by decide, recalculation_clears_staleness_and_repeat_is_noop baseOrder
    failingManager none false (by decide) (Or.inr rfl)⟩

/-- The plugin application establishes `total = shipping_price + subtotal`
by construction: the order total is set from `calculate_order_total` on the
final shipping price and lines. -/
theorem applyTaxDataFromPlugins_total (m : PluginsManager) (o : Order)
    (ls : List OrderLine) :
    (applyTaxDataFromPlugins m o ls).1.total =
      (applyTaxDataFromPlugins m o ls).1.shipping_price +
        sumTotalPrices (applyTaxDataFromPlugins m o ls).2 := rfl

/-- With parallel (equal-length) tax lines, the subtotal accumulated by the
zip loop of `_apply_tax_data` is the sum of the resulting line totals. -/
theorem applyTaxDataLines_subtotal (ls : List OrderLine) (ts : List TaxLineData)
    (h : ts.length = ls.length) :
    (applyTaxDataLines ls ts).2 = sumTotalPrices (applyTaxDataLines ls ts).1 := by
  induction ls generalizing ts with
  | nil =>
    cases ts with
    | nil => rfl
    | cons t ts => simp at h
  | cons l ls ih =>
    cases ts with
    | nil => simp at h
    | cons t ts =>
      have h' : ts.length = ls.length := by simpa using h
      show (⟨t.total_net_amount, t.total_gross_amount⟩ : TaxedMoney) +
          (applyTaxDataLines ls ts).2 = _
      rw [ih ts h']
      rfl

/-- `_apply_tax_data` preserves `total = shipping_price + subtotal`: with no
tax data it changes nothing, and with parallel tax data it rebuilds the total
as shipping plus the sum of the new line totals. -/
theorem applyTaxData_total (o : Order) (ls : List OrderLine)
    (td? : Option TaxData)
    (hpar : ∀ td, td? = some td → td.lines.length = ls.length)
    (hbase : o.total = o.shipping_price + sumTotalPrices ls) :
    (applyTaxData o ls td?).1.total =
      (applyTaxData o ls td?).1.shipping_price +
        sumTotalPrices (applyTaxData o ls td?).2 := by
  cases td? with
  | none => exact hbase
  | some td =>
    have hlen : td.lines.length = ls.length := hpar td rfl
    show (⟨td.shipping_price_net_amount, td.shipping_price_gross_amount⟩ : TaxedMoney)
        + (applyTaxDataLines ls td.lines).2 = _
    rw [applyTaxDataLines_subtotal ls td.lines hlen]
    rfl

/-- Under the tax-app strategy, `_calculate_and_add_tax` establishes
`total = shipping_price + subtotal` on both the plugin-only path (no tax-app
data) and the tax-app-data path, given parallel tax lines. -/
theorem calculateAndAddTax_taxApp_total (o : Order) (ls : List OrderLine)
    (m : PluginsManager) (pew : Bool)
    (hpar : ∀ o' td, m.get_taxes_for_order o' = some td →
      td.lines.length = ls.length) :
    (calculateAndAddTax TaxCalculationStrategy.taxApp o ls m pew).1.total =
      (calculateAndAddTax TaxCalculationStrategy.taxApp o ls m pew).1.shipping_price
        + sumTotalPrices
            (calculateAndAddTax TaxCalculationStrategy.taxApp o ls m pew).2 := by
  simp only [calculateAndAddTax]
  apply applyTaxData_total
  · intro td htd
    rw [hpar _ td htd, applyTaxDataFromPlugins_length]
  · exact applyTaxDataFromPlugins_total m o ls

/-- Stripping the tax turns the sum of the line totals into the all-net
pair of the previous sum. -/
theorem sumTotalPrices_removeTax (o : Order) (ls : List OrderLine) :
    sumTotalPrices (removeTax o ls).2 =
      ⟨(sumTotalPrices ls).net, (sumTotalPrices ls).net⟩ := by
  show sumTotalPrices (ls.map _) = _
  induction ls with
  | nil => rfl
  | cons l ls ih =>
    rw [List.map_cons, sumTotalPrices_cons, ih, sumTotalPrices_cons]
    rfl

/-- `_remove_tax` preserves `total = shipping_price + subtotal`. -/
theorem removeTax_total (o : Order) (ls : List OrderLine)
    (h : o.total = o.shipping_price + sumTotalPrices ls) :
    (removeTax o ls).1.total =
      (removeTax o ls).1.shipping_price + sumTotalPrices (removeTax o ls).2 := by
  have hnet : o.total.net = o.shipping_price.net + (sumTotalPrices ls).net := by
    rw [h]
    rfl
  show (⟨o.total.net, o.total.net⟩ : TaxedMoney) = _
  rw [sumTotalPrices_removeTax o ls]
  show _ = (⟨o.shipping_price.net, o.shipping_price.net⟩ : TaxedMoney) +
    (⟨(sumTotalPrices ls).net, (sumTotalPrices ls).net⟩ : TaxedMoney)
  rw [TaxedMoney.add_def]
  simp only [TaxedMoney.mk.injEq]
  exact ⟨hnet, hnet⟩

/-- `_calculate_taxes` under the tax-app strategy establishes
`total = shipping_price + subtotal` on every branch that actually calculates
tax. -/
theorem calculateTaxes_total (o : Order) (m : PluginsManager)
    (ls : List OrderLine)
    (hstrat : o.tax_calculation_strategy = TaxCalculationStrategy.taxApp)
    (hrun : o.prices_entered_with_tax = true ∨
      (o.charge_taxes = true ∧ o.tax_exemption = false))
    (hpar : ∀ o' td, m.get_taxes_for_order o' = some td →
      td.lines.length = ls.length) :
    (calculateTaxes o m ls).1.total =
      (calculateTaxes o m ls).1.shipping_price +
        sumTotalPrices (calculateTaxes o m ls).2 := by
  have hA : ∀ pew : Bool,
      (calculateAndAddTax TaxCalculationStrategy.taxApp o ls m pew).1.total =
        (calculateAndAddTax TaxCalculationStrategy.taxApp o ls m
            pew).1.shipping_price
          + sumTotalPrices
              (calculateAndAddTax TaxCalculationStrategy.taxApp o ls m pew).2 :=
    fun pew => calculateAndAddTax_taxApp_total o ls m pew hpar
  simp only [calculateTaxes, get_tax_calculation_strategy_for_order,
    get_charge_taxes_for_order, hstrat]
  cases hpew : o.prices_entered_with_tax with
  | false =>
    rcases hrun with h | ⟨hct, hte⟩
    · rw [hpew] at h
      cases h
    · simp only [Bool.false_eq_true, if_false, hct, hte, Bool.not_false,
        Bool.and_self, if_true]
      exact hA false
  | true =>
    simp only [if_true]
    cases hsc : (o.charge_taxes && !o.tax_exemption) with
    | false =>
      simp only [Bool.not_false, if_true]
      exact removeTax_total _ _ (hA true)
    | true =>
      simp only [Bool.not_true, Bool.false_eq_true, if_false]
      exact hA true

/-- C3: for every order on which `fetch_order_prices_and_update_if_expired`
performs a recalculation (editable status, and stale or forced) under the
tax-app strategy with a tax path taken (prices entered with tax, or taxes
chargeable), and with the tax app returning per-line data parallel to the
order's lines, the resulting order satisfies
`total = shipping_price + subtotal`, where the subtotal is the sum of the
returned lines' total prices — on both the tax-app-data path and the
plugin-only path. -/
theorem recalculated_total_is_shipping_plus_subtotal (order : Order)
    (m : PluginsManager) (lines? : Option (List OrderLine)) (force_update : Bool)
    (hstat : order.status ∈ ORDER_EDITABLE_STATUS)
    (hstale : force_update = true ∨ order.should_refresh_prices = true)
    (hstrat : order.tax_calculation_strategy = TaxCalculationStrategy.taxApp)
    (hrun : order.prices_entered_with_tax = true ∨
      (order.charge_taxes = true ∧ order.tax_exemption = false))
    (hpar : ∀ o' td, m.get_taxes_for_order o' = some td →
      td.lines.length = (lines?.getD order.lines).length) :
    (fetch_order_prices_and_update_if_expired order m lines?
        force_update).order.total =
      (fetch_order_prices_and_update_if_expired order m lines?
          force_update).order.shipping_price +
        sumTotalPrices ((fetch_order_prices_and_update_if_expired order m lines?
          force_update).lines.getD []) := by
  rw [fetch_recalculates order m lines? force_update hstat hstale]
  have hu := updateOrderDiscountForVoucher_preserves
    { order with should_refresh_prices := false }
  have hd := apply_order_discounts_preserves
    (updateOrderDiscountForVoucher { order with should_refresh_prices := false })
    (lines?.getD order.lines)
  refine calculateTaxes_total _ m _ ?_ ?_ ?_
  · rw [hd.2.2.2.2.2, hu.2.2.2.2.2.1]
    exact hstrat
  · rw [hd.2.2.1, hd.2.2.2.1, hd.2.2.2.2.1, hu.2.2.1, hu.2.2.2.1, hu.2.2.2.2.1]
    exact hrun
  · intro o' td htd
    rw [hpar o' td htd, ← apply_order_discounts_length
      (updateOrderDiscountForVoucher { order with should_refresh_prices := false })
      (lines?.getD order.lines)]

/-- Witness for C3: the stale sample order, forced, under the all-failing
manager (whose tax app returns no data, so the plugin-only path is taken). -/
theorem recalculated_total_is_shipping_plus_subtotal_witness :
    baseOrder.status ∈ ORDER_EDITABLE_STATUS ∧
    (fetch_order_prices_and_update_if_expired baseOrder failingManager
        (some [sampleLine]) true).order.total =
      (fetch_order_prices_and_update_if_expired baseOrder failingManager
          (some [sampleLine]) true).order.shipping_price +
        sumTotalPrices ((fetch_order_prices_and_update_if_expired baseOrder
          failingManager (some [sampleLine]) true).lines.getD []) :=
  ⟨by decide, recalculated_total_is_shipping_plus_subtotal baseOrder failingManager
    (some [sampleLine]) true (by decide) (Or.inl rfl) rfl (Or.inr ⟨rfl, rfl⟩)
    (fun _ td h => nomatch h)⟩

/-- Adding zero money is the identity. -/
theorem zero_taxed_money_add (p : TaxedMoney) : zero_taxed_money + p = p := by
  rw [TaxedMoney.add_def]
  cases p
  simp

/-- A fold of all-zero contributions is zero. -/
theorem foldr_const_zero (ls : List OrderLine) :
    (List.map (fun _ => zero_taxed_money) ls).foldr (· + ·) zero_taxed_money
      = zero_taxed_money := by
  induction ls with
  | nil => rfl
  | cons x xs ih => rw [List.map_cons, List.foldr_cons, ih, zero_taxed_money_add]

/-- C4: concrete refutation of "the order's and lines' price fields keep the
values they had before the failed calls".  With every tax call failing,
`_apply_tax_data_from_plugins` leaves the lines untouched but still
overwrites the order's undiscounted total with the bare base shipping price
(the accumulated undiscounted subtotal stays zero): the sample order's
undiscounted total changes from net 110 / gross 135.30 to net 10 /
gross 10. -/
theorem tax_error_still_overwrites_undiscounted_total :
    (applyTaxDataFromPlugins failingManager baseOrder
        [sampleLine]).1.undiscounted_total ≠ baseOrder.undiscounted_total ∧
    (applyTaxDataFromPlugins failingManager baseOrder [sampleLine]).2
      = [sampleLine] := by
  constructor
  · have hval : (applyTaxDataFromPlugins failingManager baseOrder
        [sampleLine]).1.undiscounted_total.net = 0 + 0 + 10 := rfl
    intro hcontra
    rw [hcontra] at hval
    have h110 : (110 : ℚ) = 0 + 0 + 10 := hval
    norm_num at h110
  · rfl

/-- C4 (amended): when every tax-provider call fails with `TaxError` and the
tax app returns no data, the tax-app calculation still completes without
propagating any exception (all errors are consumed at the catch sites, so
the embedding is total), the lines and the order's shipping price and
shipping tax rate keep the values they had before the failed calls, while
the order's undiscounted total is recomputed as the bare base shipping price
and its total is locally reaggregated as shipping plus the sum of the
(kept) line totals. -/
theorem tax_error_on_every_call_degrades_gracefully (m : PluginsManager)
    (o : Order) (ls : List OrderLine) (pew : Bool)
    (h1 : ∀ o' l, ∃ e, m.calculate_order_line_unit o' l = Except.error e)
    (h2 : ∀ o' l, ∃ e, m.calculate_order_line_total o' l = Except.error e)
    (h3 : ∀ o' p, ∃ e, m.get_order_line_tax_rate o' p = Except.error e)
    (h4 : ∀ o', ∃ e, m.calculate_order_shipping o' = Except.error e)
    (h5 : ∀ o' p, ∃ e, m.get_order_shipping_tax_rate o' p = Except.error e)
    (h6 : ∀ o', m.get_taxes_for_order o' = none) :
    (calculateAndAddTax TaxCalculationStrategy.taxApp o ls m pew).2 = ls ∧
    (calculateAndAddTax TaxCalculationStrategy.taxApp o ls m pew).1.shipping_price
      = o.shipping_price ∧
    (calculateAndAddTax TaxCalculationStrategy.taxApp o ls m
        pew).1.shipping_tax_rate = o.shipping_tax_rate ∧
    (calculateAndAddTax TaxCalculationStrategy.taxApp o ls m
        pew).1.undiscounted_total
      = ⟨o.base_shipping_price, o.base_shipping_price⟩ ∧
    (calculateAndAddTax TaxCalculationStrategy.taxApp o ls m pew).1.total
      = o.shipping_price + sumTotalPrices ls := by
  have hline : ∀ l, applyPluginsToLine m o l = (l, zero_taxed_money) := by
    intro l
    unfold applyPluginsToLine
    rcases l.variant with _ | v
    · rfl
    · obtain ⟨e, he⟩ := h1 o l
      rw [he]
  have hfun : applyPluginsToLine m o = fun l => (l, zero_taxed_money) :=
    funext hline
  obtain ⟨e4, he4⟩ := h4 o
  have hmapfst : ∀ xs : List OrderLine,
      List.map Prod.fst (List.map (fun l => (l, zero_taxed_money)) xs) = xs := by
    intro xs
    induction xs with
    | nil => rfl
    | cons x t ih => rw [List.map_cons, List.map_cons, ih]
  have hmapsnd : ∀ xs : List OrderLine,
      (List.map Prod.snd (List.map (fun l => (l, zero_taxed_money)) xs)).foldr
        (· + ·) zero_taxed_money = zero_taxed_money := by
    intro xs
    induction xs with
    | nil => rfl
    | cons x t ih =>
      rw [List.map_cons, List.map_cons, List.foldr_cons, ih]
      exact zero_taxed_money_add zero_taxed_money
  have hpair : applyTaxDataFromPlugins m o ls =
      ({ o with
          undiscounted_total := zero_taxed_money +
            (⟨o.base_shipping_price, o.base_shipping_price⟩ : TaxedMoney)
          total := o.shipping_price + sumTotalPrices ls }, ls) := by
    unfold applyTaxDataFromPlugins
    rw [hfun, he4]
    dsimp only
    rw [hmapfst ls, hmapsnd ls]
    rfl
  simp [calculateAndAddTax, hpair, h6, applyTaxData, zero_taxed_money_add]

/-- Witness for C4's amended theorem: the all-failing manager on the sample
order. -/
theorem tax_error_on_every_call_degrades_gracefully_witness :
    failingManager.get_taxes_for_order baseOrder = none ∧
    ((calculateAndAddTax TaxCalculationStrategy.taxApp baseOrder [sampleLine]
        failingManager false).2 = [sampleLine] ∧
    (calculateAndAddTax TaxCalculationStrategy.taxApp baseOrder [sampleLine]
        failingManager false).1.shipping_price = baseOrder.shipping_price ∧
    (calculateAndAddTax TaxCalculationStrategy.taxApp baseOrder [sampleLine]
        failingManager false).1.shipping_tax_rate = baseOrder.shipping_tax_rate ∧
    (calculateAndAddTax TaxCalculationStrategy.taxApp baseOrder [sampleLine]
        failingManager false).1.undiscounted_total
      = ⟨baseOrder.base_shipping_price, baseOrder.base_shipping_price⟩ ∧
    (calculateAndAddTax TaxCalculationStrategy.taxApp baseOrder [sampleLine]
        failingManager false).1.total
      = baseOrder.shipping_price + sumTotalPrices [sampleLine]) :=
  ⟨rfl, tax_error_on_every_call_degrades_gracefully failingManager baseOrder
    [sampleLine] false
    (fun _ _ => ⟨⟨"tax app down"⟩, rfl⟩) (fun _ _ => ⟨⟨"tax app down"⟩, rfl⟩)
    (fun _ _ => ⟨⟨"tax app down"⟩, rfl⟩) (fun _ => ⟨⟨"tax app down"⟩, rfl⟩)
    (fun _ _ => ⟨⟨"tax app down"⟩, rfl⟩) (fun _ => rfl)⟩

end Saleor
